import Mathlib

/-
  Shallow embedding of the escrow/ledger core of the FreelanceTM bot
  (src/main.py).  User ids are naturals (Python dict keys `str(user_id)`);
  monetary amounts are modelled as exact rationals.  Missing dict fields
  that Python reads with `.get(k, 0.0)` are modelled as total record
  fields, with the default made explicit at record creation.
-/

/-- A user record: `balance` is the available balance field `'balance'`,
`frozen` is `'frozen_balance'` (src/main.py, create_user / balance ops). -/
structure UserRec where
  balance : ℚ
  frozen  : ℚ
deriving Repr, DecidableEq

/-- The `users_db` dictionary: a partial map from user id to record. -/
def Users : Type := Nat → Option UserRec

/-- Point update of `users_db` (Python mutates the dict entry in place). -/
def setUser (users : Users) (uid : Nat) (r : UserRec) : Users :=
  fun u => if u = uid then some r else users u

/-- Embeds `get_user_balance` (src/main.py:287): the user's `'balance'`
field, defaulting to 0.0 when the user or the field is missing. -/
def get_user_balance (users : Users) (uid : Nat) : ℚ :=
  match users uid with
  | some u => u.balance
  | none => 0

/-- Embeds `get_user_frozen_balance` (src/main.py:418). -/
def get_user_frozen_balance (users : Users) (uid : Nat) : ℚ :=
  match users uid with
  | some u => u.frozen
  | none => 0

/-- Embeds `add_to_balance` (src/main.py:298): unconditionally adds
`amount` to the user's available balance; fails only if the user is
missing.  There is no sign check on `amount` in the source. -/
def add_to_balance (users : Users) (uid : Nat) (amount : ℚ) : Users × Bool :=
  match users uid with
  | some u => (setUser users uid ⟨u.balance + amount, u.frozen⟩, true)
  | none => (users, false)

/-- Embeds `subtract_from_balance` (src/main.py:308): debits `amount`
when `current_balance >= amount`, otherwise leaves state unchanged. -/
def subtract_from_balance (users : Users) (uid : Nat) (amount : ℚ) : Users × Bool :=
  match users uid with
  | some u =>
      if amount ≤ u.balance then (setUser users uid ⟨u.balance - amount, u.frozen⟩, true)
      else (users, false)
  | none => (users, false)

/-- Embeds `freeze_balance` (src/main.py:423): moves `amount` from
available to frozen when `current_balance >= amount`. -/
def freeze_balance (users : Users) (uid : Nat) (amount : ℚ) : Users × Bool :=
  match users uid with
  | some u =>
      if amount ≤ u.balance then
        (setUser users uid ⟨u.balance - amount, u.frozen + amount⟩, true)
      else (users, false)
  | none => (users, false)

/-- Embeds `unfreeze_balance` (src/main.py:435): moves `amount` from
frozen back to available when `frozen >= amount`. -/
def unfreeze_balance (users : Users) (uid : Nat) (amount : ℚ) : Users × Bool :=
  match users uid with
  | some u =>
      if amount ≤ u.frozen then
        (setUser users uid ⟨u.balance + amount, u.frozen - amount⟩, true)
      else (users, false)
  | none => (users, false)

/-- Embeds `transfer_frozen_to_user` (src/main.py:447).  Python fetches
both dict references before mutating; when `to_user_id = from_user_id`
the two references alias one dict, so the second write sees the first:
this is modelled by re-reading the target record from the once-updated
map (`tu1`). -/
def transfer_frozen_to_user (users : Users) (fromId toId : Nat) (amount : ℚ) :
    Users × Bool :=
  match users fromId, users toId with
  | some fu, some tu =>
      if amount ≤ fu.frozen then
        let users1 := setUser users fromId ⟨fu.balance, fu.frozen - amount⟩
        let tu1 := if toId = fromId then ⟨fu.balance, fu.frozen - amount⟩ else tu
        (setUser users1 toId ⟨tu1.balance + amount, tu1.frozen⟩, true)
      else (users, false)
  | _, _ => (users, false)

/-- A single Ledger operation of the spec's §4.1, mapped onto the five
balance functions of src/main.py. -/
inductive LOp where
  | credit (uid : Nat) (amt : ℚ)
  | debit (uid : Nat) (amt : ℚ)
  | freeze (uid : Nat) (amt : ℚ)
  | unfreeze (uid : Nat) (amt : ℚ)
  | transferFrozen (fromId toId : Nat) (amt : ℚ)
deriving Repr, DecidableEq

/-- The amount carried by a Ledger operation. -/
def LOp.amt : LOp → ℚ
  | .credit _ a => a
  | .debit _ a => a
  | .freeze _ a => a
  | .unfreeze _ a => a
  | .transferFrozen _ _ a => a

/-- Applies one Ledger operation (the state component of the
corresponding src/main.py function). -/
def applyOp (users : Users) : LOp → Users
  | .credit uid a => (add_to_balance users uid a).1
  | .debit uid a => (subtract_from_balance users uid a).1
  | .freeze uid a => (freeze_balance users uid a).1
  | .unfreeze uid a => (unfreeze_balance users uid a).1
  | .transferFrozen f t a => (transfer_frozen_to_user users f t a).1

/-- Applies a sequence of Ledger operations, left to right. -/
def applyOps (users : Users) (ops : List LOp) : Users :=
  ops.foldl applyOp users

/-- Every existing user has nonnegative available and frozen balance. -/
def NonnegUsers (users : Users) : Prop :=
  ∀ uid r, users uid = some r → 0 ≤ r.balance ∧ 0 ≤ r.frozen

/-- Order status strings occurring in src/main.py for regular orders. -/
inductive OrderStatus where
  | active
  | inProgress
  | completed
  | cancelled
  | waitingPayment
deriving Repr, DecidableEq

/-- An order record: the fields of `orders_db` entries that the escrow
core reads (src/main.py create_order / select_freelancer /
confirm_completion).  `selected_freelancer` is absent (`none`) until a
freelancer is selected. -/
structure OrderRec where
  client_id : Nat
  budget : ℚ
  status : OrderStatus
  selected_freelancer : Option Nat
  client_confirmed : Bool
  freelancer_confirmed : Bool
deriving Repr, DecidableEq

/-- The `orders_db` dictionary. -/
def Orders : Type := Nat → Option OrderRec

/-- Point update of `orders_db` (`update_order`, src/main.py:163). -/
def setOrder (orders : Orders) (oid : Nat) (o : OrderRec) : Orders :=
  fun i => if i = oid then some o else orders i

/-- Status of an escrow (topup/withdrawal) request. -/
inductive ReqStatus where
  | pending
  | completed
  | rejected
deriving Repr, DecidableEq

/-- Request type tag.  `create_balance_request` (src/main.py:461) writes
`'topup'` or `'withdraw'`; `create_withdrawal_request` (src/main.py:319)
writes no `'type'` key at all, modelled as `none`. -/
inductive ReqType where
  | topup
  | withdraw
deriving Repr, DecidableEq

/-- An entry of `withdrawals_db`: both withdrawal requests and balance
(topup) requests are stored in this one dictionary in src/main.py. -/
structure WithdrawalRec where
  user_id : Nat
  amount : ℚ
  phone : String
  rtype : Option ReqType
  status : ReqStatus
  balance_before : ℚ
deriving Repr, DecidableEq

/-- The `withdrawals_db` dictionary. -/
def Withdrawals : Type := Nat → Option WithdrawalRec

/-- Point update of `withdrawals_db`. -/
def setWithdrawal (ws : Withdrawals) (wid : Nat) (w : WithdrawalRec) : Withdrawals :=
  fun i => if i = wid then some w else ws i

/-- A review record (`reviews_db` values hold rating and text plus the
identifying ids, src/main.py add_review). -/
structure ReviewRec where
  rating : Nat
  text : String
deriving Repr, DecidableEq

/-- The `reviews_db` dictionary.  Python keys reviews by the string
`"{order_id}_{reviewer_id}_{reviewed_id}"`, which is in bijection with
the id triple. -/
def Reviews : Type := Nat × Nat × Nat → Option ReviewRec

/-- Point update of `reviews_db`. -/
def setReview (rs : Reviews) (k : Nat × Nat × Nat) (r : ReviewRec) : Reviews :=
  fun i => if i = k then some r else rs i

/-- The global mutable state of src/main.py that the escrow core touches:
the four dictionaries plus the withdrawal id counter. -/
structure St where
  users : Users
  orders : Orders
  withdrawals : Withdrawals
  reviews : Reviews
  withdrawal_counter : Nat

/-- Embeds the `select_freelancer` callback handler (src/main.py:1697).
Checks, in source order: caller registered (Python would raise on
`user['language']` otherwise, mutating nothing), order exists and caller
is its client, client balance covers the budget.  It then freezes the
budget and marks the order in_progress.  NOTE: the source performs no
check of `order['status']`.  If the chosen freelancer id is unregistered,
Python raises inside the notification formatting after `freeze_balance`
but before `update_order`; that truncated state is modelled too. -/
def select_freelancer (s : St) (callerId orderId freelancerId : Nat) : St :=
  match s.users callerId with
  | none => s
  | some _ =>
    match s.orders orderId with
    | none => s
    | some o =>
      if o.client_id ≠ callerId then s
      else if get_user_balance s.users callerId < o.budget then s
      else
        let users1 := (freeze_balance s.users callerId o.budget).1
        match s.users freelancerId with
        | none => { s with users := users1 }
        | some _ =>
          { s with
            users := users1,
            orders := setOrder s.orders orderId
              ⟨o.client_id, o.budget, OrderStatus.inProgress, some freelancerId,
               false, false⟩ }

/-- Embeds the `confirm_completion` callback handler (src/main.py:1791).
Requires order and caller to exist and the caller to be the order's
client or its selected freelancer; sets the caller's confirmation flag;
when both flags are set, marks the order completed and transfers the
frozen budget from the client to the selected freelancer.  NOTE: the
source performs no check of `order['status']`. -/
def confirm_completion (s : St) (callerId orderId : Nat) : St :=
  match s.orders orderId, s.users callerId with
  | some o, some _ =>
    if callerId = o.client_id ∨ o.selected_freelancer = some callerId then
      let o1 :=
        if callerId = o.client_id then
          ⟨o.client_id, o.budget, o.status, o.selected_freelancer,
           true, o.freelancer_confirmed⟩
        else if o.selected_freelancer = some callerId then
          ⟨o.client_id, o.budget, o.status, o.selected_freelancer,
           o.client_confirmed, true⟩
        else o
      let orders1 := setOrder s.orders orderId o1
      if o1.client_confirmed && o1.freelancer_confirmed then
        let orders2 := setOrder orders1 orderId
          ⟨o1.client_id, o1.budget, OrderStatus.completed,
           o1.selected_freelancer, o1.client_confirmed, o1.freelancer_confirmed⟩
        let users2 :=
          match o1.selected_freelancer with
          | some f => (transfer_frozen_to_user s.users o1.client_id f o1.budget).1
          | none => s.users
        { s with orders := orders2, users := users2 }
      else { s with orders := orders1 }
    else s
  | _, _ => s

/-- Embeds `create_withdrawal_request` (src/main.py:319): allocates the
next withdrawal id, stores a pending request with `balance_before` set to
the user's current available balance, and performs NO balance mutation
itself.  Returns the new request id. -/
def create_withdrawal_request (s : St) (userId : Nat) (amount : ℚ) (phone : String) :
    St × Nat :=
  let wid := s.withdrawal_counter
  let w : WithdrawalRec :=
    ⟨userId, amount, phone, none, ReqStatus.pending, get_user_balance s.users userId⟩
  ({ s with
      withdrawal_counter := wid + 1,
      withdrawals := setWithdrawal s.withdrawals wid w }, wid)

/-- Embeds the `confirm_withdrawal` callback handler (src/main.py:3774):
creates the withdrawal request first, then debits the amount from the
user's available balance via `subtract_from_balance`.  Returns `none`
when the caller is unregistered (Python raises before any mutation). -/
def confirm_withdrawal (s : St) (userId : Nat) (amount : ℚ) (phone : String) :
    Option (St × Nat) :=
  match s.users userId with
  | none => none
  | some _ =>
    let sw := create_withdrawal_request s userId amount phone
    let users2 := (subtract_from_balance sw.1.users userId amount).1
    some ({ sw.1 with users := users2 }, sw.2)

/-- Embeds the `admin_confirm_topup` callback handler (src/main.py:2376):
requires the request to exist and carry type `'topup'`, then credits the
amount and marks the request completed.  NOTE: the source performs no
check of `request['status']`. -/
def admin_confirm_topup (s : St) (requestId : Nat) : St :=
  match s.withdrawals requestId with
  | none => s
  | some r =>
    if r.rtype ≠ some ReqType.topup then s
    else
      { s with
        users := (add_to_balance s.users r.user_id r.amount).1,
        withdrawals := setWithdrawal s.withdrawals requestId
          ⟨r.user_id, r.amount, r.phone, r.rtype, ReqStatus.completed, r.balance_before⟩ }

/-- Embeds the `admin_confirm_withdrawal` callback handler
(src/main.py:3880): requires the request to exist and be pending, then
marks it completed; no ledger effect (the debit happened at creation). -/
def admin_confirm_withdrawal (s : St) (requestId : Nat) : St :=
  match s.withdrawals requestId with
  | none => s
  | some r =>
    if r.status ≠ ReqStatus.pending then s
    else
      { s with
        withdrawals := setWithdrawal s.withdrawals requestId
          ⟨r.user_id, r.amount, r.phone, r.rtype, ReqStatus.completed, r.balance_before⟩ }

/-- Embeds the `admin_reject_withdrawal` callback handler
(src/main.py:3912): requires the request to exist and be pending, marks
it rejected, then re-credits the amount to the user's balance. -/
def admin_reject_withdrawal (s : St) (requestId : Nat) : St :=
  match s.withdrawals requestId with
  | none => s
  | some r =>
    if r.status ≠ ReqStatus.pending then s
    else
      { s with
        withdrawals := setWithdrawal s.withdrawals requestId
          ⟨r.user_id, r.amount, r.phone, r.rtype, ReqStatus.rejected, r.balance_before⟩,
        users := (add_to_balance s.users r.user_id r.amount).1 }

/-- Embeds `add_review` (src/main.py:229): fails iff a review with the
same `(order_id, reviewer_id, reviewed_id)` key already exists, otherwise
inserts the record.  NOTE: the source checks nothing else here (no order
status or participant check). -/
def add_review (s : St) (orderId reviewerId reviewedId : Nat) (rating : Nat)
    (text : String) : St × Bool :=
  if (s.reviews (orderId, reviewerId, reviewedId)).isSome then (s, false)
  else
    ({ s with
        reviews := setReview s.reviews (orderId, reviewerId, reviewedId)
          ⟨rating, text⟩ }, true)

/-- Embeds `can_leave_review` (src/main.py:260): the order exists and is
completed, the reviewer is its client or its selected freelancer, and no
review for the triple exists yet. -/
def can_leave_review (s : St) (orderId reviewerId reviewedId : Nat) : Bool :=
  match s.orders orderId with
  | none => false
  | some o =>
    if o.status ≠ OrderStatus.completed then false
    else if ¬(reviewerId = o.client_id ∨ o.selected_freelancer = some reviewerId) then
      false
    else (s.reviews (orderId, reviewerId, reviewedId)).isNone

/-- Empty users dictionary. -/
def noUsers : Users := fun _ => none

/-- Empty orders dictionary. -/
def noOrders : Orders := fun _ => none

/-- Empty withdrawals dictionary. -/
def noWithdrawals : Withdrawals := fun _ => none

/-- Empty reviews dictionary. -/
def noReviews : Reviews := fun _ => none

/-- Concrete state for the double-selection scenario: client 1 holds 100
available, freelancers 2 and 3 are registered, order 7 is active with
budget 50. -/
def stDoubleSelect : St where
  users := fun u =>
    if u = 1 then some ⟨100, 0⟩
    else if u = 2 then some ⟨0, 0⟩
    else if u = 3 then some ⟨0, 0⟩
    else none
  orders := fun i =>
    if i = 7 then some ⟨1, 50, OrderStatus.active, none, false, false⟩ else none
  withdrawals := noWithdrawals
  reviews := noReviews
  withdrawal_counter := 1

/-- Concrete state for the select-on-in_progress scenario: order 7 is
already in_progress with freelancer 2 selected and 50 frozen; the client
still has 60 available; freelancer 3 is registered. -/
def stSelectNotActive : St where
  users := fun u =>
    if u = 1 then some ⟨60, 50⟩
    else if u = 2 then some ⟨0, 0⟩
    else if u = 3 then some ⟨0, 0⟩
    else none
  orders := fun i =>
    if i = 7 then some ⟨1, 50, OrderStatus.inProgress, some 2, false, false⟩ else none
  withdrawals := noWithdrawals
  reviews := noReviews
  withdrawal_counter := 1

/-- Concrete state for confirmation scenarios (spec Scenario B): client 1
has 150 frozen, freelancer 2 registered; order 7 is in_progress with
freelancer 2 selected and the freelancer already confirmed; order 8 is
in_progress with no confirmation yet. -/
def stConfirmScenario : St where
  users := fun u =>
    if u = 1 then some ⟨0, 150⟩
    else if u = 2 then some ⟨0, 0⟩
    else none
  orders := fun i =>
    if i = 7 then some ⟨1, 150, OrderStatus.inProgress, some 2, false, true⟩
    else if i = 8 then some ⟨1, 150, OrderStatus.inProgress, some 2, false, false⟩
    else none
  withdrawals := noWithdrawals
  reviews := noReviews
  withdrawal_counter := 1

/-- Concrete state for the double-confirmation scenario: client 1 has 100
frozen (50 escrowed for order 7 plus 50 for another engagement), order 7
has budget 50, is in_progress with freelancer 2 selected and the
freelancer already confirmed. -/
def stDoubleConfirm : St where
  users := fun u =>
    if u = 1 then some ⟨0, 100⟩
    else if u = 2 then some ⟨0, 0⟩
    else none
  orders := fun i =>
    if i = 7 then some ⟨1, 50, OrderStatus.inProgress, some 2, false, true⟩ else none
  withdrawals := noWithdrawals
  reviews := noReviews
  withdrawal_counter := 1

/-- Concrete state with one pending topup request (id 4, user 1,
amount 50) and user 1 at zero balance. -/
def stTopupTwice : St where
  users := fun u => if u = 1 then some ⟨0, 0⟩ else none
  orders := noOrders
  withdrawals := fun i =>
    if i = 4 then some ⟨1, 50, "", some ReqType.topup, ReqStatus.pending, 0⟩ else none
  reviews := noReviews
  withdrawal_counter := 5

/-- Concrete state for the withdrawal round trip (spec Scenario C):
user 1 holds 100 available, no requests yet, next request id 9. -/
def stWithdraw : St where
  users := fun u => if u = 1 then some ⟨100, 0⟩ else none
  orders := noOrders
  withdrawals := noWithdrawals
  reviews := noReviews
  withdrawal_counter := 9

/-- Concrete state for the review gate: order 7 exists but is still
active with no freelancer; one review (for order 7, by user 1, about
user 2) is already recorded. -/
def stReviewGate : St where
  users := fun u => if u = 1 then some ⟨0, 0⟩ else none
  orders := fun i =>
    if i = 7 then some ⟨1, 50, OrderStatus.active, none, false, false⟩ else none
  withdrawals := noWithdrawals
  reviews := fun k => if k = (7, 1, 2) then some ⟨5, "ok"⟩ else none
  withdrawal_counter := 1

/-- Users dictionary with the single user 1 at zero balances. -/
def usersNonnegOne : Users := fun u => if u = 1 then some ⟨0, 0⟩ else none

/-- Users dictionary with client 1 holding 150 available and
freelancer 2 at zero (spec Scenario A figures). -/
def usersPair : Users :=
  fun u => if u = 1 then some ⟨150, 0⟩ else if u = 2 then some ⟨0, 0⟩ else none

/-- Users dictionary with the single user 1 holding 10 available and
40 frozen. -/
def usersFrozen : Users := fun u => if u = 1 then some ⟨10, 40⟩ else none

/-- C1: refuted by the code.  The spec's invariant demands exactly one
freeze of `budget` on the client's balance while an order is in_progress.
In `select_freelancer` no order-status check exists, so selecting on
order 7 (budget 50) a second time, while it is already in_progress,
freezes a second 50: after the two calls the order is in_progress with
100 frozen on the client, i.e. two simultaneous freezes of its budget. -/
theorem c1_second_freeze_while_in_progress :
    ((select_freelancer stDoubleSelect 1 7 2).orders 7).map OrderRec.status
      = some OrderStatus.inProgress ∧
    (select_freelancer stDoubleSelect 1 7 2).users 1 = some ⟨50, 50⟩ ∧
    ((select_freelancer (select_freelancer stDoubleSelect 1 7 2) 1 7 2).orders 7).map
      OrderRec.status = some OrderStatus.inProgress ∧
    (select_freelancer (select_freelancer stDoubleSelect 1 7 2) 1 7 2).users 1
      = some ⟨0, 100⟩ := by
  norm_num [select_freelancer, stDoubleSelect, get_user_balance, freeze_balance,
    setUser, setOrder, noWithdrawals, noReviews]

/-- C3: refuted by the code.  The claim says a Select on an order whose
status is not active fails with OrderNotActive and changes nothing.  In
`select_freelancer` the status is never read: on order 7, already
in_progress with freelancer 2 selected and 50 frozen, the client's
Select of freelancer 3 succeeds — it freezes another 50 (available
60 → 10, frozen 50 → 100) and overwrites the selected freelancer. -/
theorem c3_select_succeeds_on_non_active_order :
    (select_freelancer stSelectNotActive 1 7 3).users 1 = some ⟨10, 100⟩ ∧
    (select_freelancer stSelectNotActive 1 7 3).orders 7
      = some ⟨1, 50, OrderStatus.inProgress, some 3, false, false⟩ := by
  norm_num [select_freelancer, stSelectNotActive, get_user_balance, freeze_balance,
    setUser, setOrder, noWithdrawals, noReviews]

/-- C4: refuted by the code.  In `stDoubleConfirm` client 1 holds 100
frozen and order 7 (budget 50) already has the freelancer's confirmation.
One client confirmation completes the order and pays the freelancer 50.
Because `confirm_completion` never checks that the order is still
in_progress, a second identical confirmation runs the transfer again:
the freelancer ends with 100 and the client's frozen balance with 0,
different from the result of confirming once. -/
theorem c4_confirm_twice_pays_twice :
    (confirm_completion stDoubleConfirm 1 7).users 2 = some ⟨50, 0⟩ ∧
    (confirm_completion stDoubleConfirm 1 7).users 1 = some ⟨0, 50⟩ ∧
    ((confirm_completion stDoubleConfirm 1 7).orders 7).map OrderRec.status
      = some OrderStatus.completed ∧
    (confirm_completion (confirm_completion stDoubleConfirm 1 7) 1 7).users 2
      = some ⟨100, 0⟩ ∧
    (confirm_completion (confirm_completion stDoubleConfirm 1 7) 1 7).users 1
      = some ⟨0, 0⟩ := by
  norm_num [confirm_completion, stDoubleConfirm, transfer_frozen_to_user,
    setUser, setOrder, noWithdrawals, noReviews]

/-- C5: refuted by the code.  `admin_confirm_topup` checks only that the
request exists and has type topup, never its status.  Approving pending
topup request 4 (user 1, amount 50) marks it completed and credits 50;
approving the very same, already completed, request again credits a
second 50, so the user ends with 100 from one request. -/
theorem c5_topup_approved_twice_credits_twice :
    ((admin_confirm_topup stTopupTwice 4).withdrawals 4).map WithdrawalRec.status
      = some ReqStatus.completed ∧
    (admin_confirm_topup stTopupTwice 4).users 1 = some ⟨50, 0⟩ ∧
    (admin_confirm_topup (admin_confirm_topup stTopupTwice 4) 4).users 1
      = some ⟨100, 0⟩ := by
  norm_num [admin_confirm_topup, stTopupTwice, add_to_balance,
    setUser, setWithdrawal, noOrders, noReviews]

/-- C10: confirmed.  `transfer_frozen_to_user` never requires the two
user ids to differ; when both are the same user `u` with at least
`amount` frozen, the two dict references alias one record, so the call
succeeds and is exactly `unfreeze_balance u amount`: frozen decreases by
`amount` and available increases by `amount`. -/
theorem c10_self_transfer_equals_unfreeze (users : Users) (uid : Nat) (amount : ℚ)
    (r : UserRec) (hu : users uid = some r) (hfr : amount ≤ r.frozen) :
    transfer_frozen_to_user users uid uid amount = unfreeze_balance users uid amount ∧
    (transfer_frozen_to_user users uid uid amount).2 = true ∧
    (transfer_frozen_to_user users uid uid amount).1 uid
      = some ⟨r.balance + amount, r.frozen - amount⟩ := by
  have hset : setUser (setUser users uid ⟨r.balance, r.frozen - amount⟩) uid
      ⟨r.balance + amount, r.frozen - amount⟩
      = setUser users uid ⟨r.balance + amount, r.frozen - amount⟩ := by
    funext u
    by_cases h : u = uid <;> simp [setUser, h]
  refine ⟨?_, ?_, ?_⟩ <;>
    simp [transfer_frozen_to_user, unfreeze_balance, hu, hfr, hset, setUser]

/-- C10 witness: user 1 holds 10 available and 40 frozen; the self
transfer of 25 equals the unfreeze of 25 and yields 35 available,
15 frozen. -/
theorem c10_self_transfer_equals_unfreeze_witness :
    transfer_frozen_to_user usersFrozen 1 1 25 = unfreeze_balance usersFrozen 1 25 ∧
    (transfer_frozen_to_user usersFrozen 1 1 25).2 = true ∧
    (transfer_frozen_to_user usersFrozen 1 1 25).1 1 = some ⟨10 + 25, 40 - 25⟩ :=
  c10_self_transfer_equals_unfreeze usersFrozen 1 25 ⟨10, 40⟩ rfl (by norm_num)

/-- C8: confirmed.  First conjunct: for two distinct users with
nonnegative frozen balance on the payer, `freeze_balance` followed by
`transfer_frozen_to_user` debits exactly `amount` from the payer's
combined balance (available drops by `amount`, frozen returns to its
old value) and credits exactly `amount` to the payee's available
balance, touching nobody else.  Second conjunct: `freeze_balance`
followed by `unfreeze_balance` of the same amount restores the user's
record exactly and touches nobody else. -/
theorem c8_freeze_transfer_conservation :
    (∀ (users : Users) (u v : Nat) (amount : ℚ) (ru rv : UserRec),
        u ≠ v → users u = some ru → users v = some rv →
        0 ≤ ru.frozen → amount ≤ ru.balance →
        (transfer_frozen_to_user (freeze_balance users u amount).1 u v amount).1 u
          = some ⟨ru.balance - amount, ru.frozen⟩ ∧
        (transfer_frozen_to_user (freeze_balance users u amount).1 u v amount).1 v
          = some ⟨rv.balance + amount, rv.frozen⟩ ∧
        (∀ w, w ≠ u → w ≠ v →
          (transfer_frozen_to_user (freeze_balance users u amount).1 u v amount).1 w
            = users w)) ∧
    (∀ (users : Users) (u : Nat) (amount : ℚ) (ru : UserRec),
        users u = some ru → 0 ≤ ru.frozen → amount ≤ ru.balance →
        (unfreeze_balance (freeze_balance users u amount).1 u amount).1 u
          = some ⟨ru.balance, ru.frozen⟩ ∧
        (∀ w, w ≠ u →
          (unfreeze_balance (freeze_balance users u amount).1 u amount).1 w
            = users w)) := by
  constructor
  · intro users u v amount ru rv huv hu hv hfr hbal
    have hvu : v ≠ u := Ne.symm huv
    have h1 : (freeze_balance users u amount).1
        = setUser users u ⟨ru.balance - amount, ru.frozen + amount⟩ := by
      simp [freeze_balance, hu, hbal]
    have h1u : (freeze_balance users u amount).1 u
        = some ⟨ru.balance - amount, ru.frozen + amount⟩ := by
      rw [h1]; simp [setUser]
    have h1v : (freeze_balance users u amount).1 v = some rv := by
      rw [h1]; simp [setUser, hvu, hv]
    have hguard : amount ≤ ru.frozen + amount := by linarith
    refine ⟨?_, ?_, ?_⟩
    · simp [transfer_frozen_to_user, h1u, h1v, hguard, hvu, h1, setUser, huv]
    · simp [transfer_frozen_to_user, h1u, h1v, hguard, hvu, h1, setUser]
    · intro w hwu hwv
      simp [transfer_frozen_to_user, h1u, h1v, hguard, hvu, h1, setUser, hwu, hwv]
  · intro users u amount ru hu hfr hbal
    have h1 : (freeze_balance users u amount).1
        = setUser users u ⟨ru.balance - amount, ru.frozen + amount⟩ := by
      simp [freeze_balance, hu, hbal]
    have h1u : (freeze_balance users u amount).1 u
        = some ⟨ru.balance - amount, ru.frozen + amount⟩ := by
      rw [h1]; simp [setUser]
    have hguard : amount ≤ ru.frozen + amount := by linarith
    refine ⟨?_, ?_⟩
    · simp [unfreeze_balance, h1u, hguard, setUser]
    · intro w hwu
      simp [unfreeze_balance, h1u, hguard, h1, setUser, hwu]

/-- C8 witness: freezing 150 on client 1 (who has exactly 150) and
transferring it to freelancer 2 leaves client 1 at zero and freelancer 2
with 150 available; freezing 10 on the user with 10 available and 40
frozen and unfreezing it again restores the record exactly. -/
theorem c8_freeze_transfer_conservation_witness :
    ((transfer_frozen_to_user (freeze_balance usersPair 1 150).1 1 2 150).1 1
        = some ⟨150 - 150, 0⟩ ∧
      (transfer_frozen_to_user (freeze_balance usersPair 1 150).1 1 2 150).1 2
        = some ⟨0 + 150, 0⟩ ∧
      (∀ w, w ≠ 1 → w ≠ 2 →
        (transfer_frozen_to_user (freeze_balance usersPair 1 150).1 1 2 150).1 w
          = usersPair w)) ∧
    ((unfreeze_balance (freeze_balance usersFrozen 1 10).1 1 10).1 1
        = some ⟨10, 40⟩ ∧
      (∀ w, w ≠ 1 →
        (unfreeze_balance (freeze_balance usersFrozen 1 10).1 1 10).1 w
          = usersFrozen w)) :=
  ⟨c8_freeze_transfer_conservation.1 usersPair 1 2 150 ⟨150, 0⟩ ⟨0, 0⟩
      (by norm_num) rfl rfl (by norm_num) (by norm_num),
   c8_freeze_transfer_conservation.2 usersFrozen 1 10 ⟨10, 40⟩ rfl
      (by norm_num) (by norm_num)⟩

/-- C2: confirmed.  First conjunct: for an in_progress order whose other
party has already confirmed (client's budget frozen in full, distinct
participants), the remaining participant's `confirm_completion` marks the
order completed with both flags set, debits the client's frozen balance
by the budget and credits the freelancer's available balance by the
budget.  Second conjunct: a first, one-sided confirmation leaves the
order in_progress and all balances untouched. -/
theorem c2_confirm_completion_settles :
    (∀ (s : St) (orderId callerId fId : Nat) (o : OrderRec) (cu fu : UserRec),
        s.orders orderId = some o →
        o.status = OrderStatus.inProgress →
        o.selected_freelancer = some fId →
        fId ≠ o.client_id →
        s.users o.client_id = some cu →
        s.users fId = some fu →
        o.budget ≤ cu.frozen →
        ((callerId = o.client_id ∧ o.freelancer_confirmed = true) ∨
         (callerId = fId ∧ o.client_confirmed = true)) →
        (confirm_completion s callerId orderId).orders orderId
          = some ⟨o.client_id, o.budget, OrderStatus.completed, some fId, true, true⟩ ∧
        (confirm_completion s callerId orderId).users o.client_id
          = some ⟨cu.balance, cu.frozen - o.budget⟩ ∧
        (confirm_completion s callerId orderId).users fId
          = some ⟨fu.balance + o.budget, fu.frozen⟩) ∧
    (∀ (s : St) (orderId callerId fId : Nat) (o : OrderRec) (w : UserRec),
        s.orders orderId = some o →
        o.status = OrderStatus.inProgress →
        o.selected_freelancer = some fId →
        fId ≠ o.client_id →
        s.users callerId = some w →
        ((callerId = o.client_id ∧ o.freelancer_confirmed = false) ∨
         (callerId = fId ∧ o.client_confirmed = false)) →
        ((confirm_completion s callerId orderId).orders orderId).map OrderRec.status
          = some OrderStatus.inProgress ∧
        (confirm_completion s callerId orderId).users = s.users) := by
  constructor
  · intro s orderId callerId fId o cu fu hord hst hsel hne hcu hfu hbud hcase
    have hfc : o.client_id ≠ fId := Ne.symm hne
    rcases hcase with ⟨rfl, hconf⟩ | ⟨rfl, hconf⟩
    · simp [confirm_completion, hord, hcu, hsel, hconf, transfer_frozen_to_user,
        hfu, hbud, hfc, hne, setOrder, setUser]
    · simp [confirm_completion, hord, hcu, hfu, hsel, hconf, hne, hfc,
        transfer_frozen_to_user, hbud, setOrder, setUser]
  · intro s orderId callerId fId o w hord hst hsel hne hw hcase
    rcases hcase with ⟨rfl, hconf⟩ | ⟨rfl, hconf⟩
    · simp [confirm_completion, hord, hw, hsel, hconf, hst, setOrder]
    · simp [confirm_completion, hord, hw, hsel, hconf, hne, hst, setOrder]

/-- C2 witness: in `stConfirmScenario` the client's confirmation of
order 7 (freelancer already confirmed) completes it and moves the 150
from the client's frozen balance to freelancer 2; the freelancer's first
confirmation of order 8 leaves it in_progress with balances untouched. -/
theorem c2_confirm_completion_settles_witness :
    ((confirm_completion stConfirmScenario 1 7).orders 7
        = some ⟨1, 150, OrderStatus.completed, some 2, true, true⟩ ∧
      (confirm_completion stConfirmScenario 1 7).users 1
        = some ⟨0, 150 - 150⟩ ∧
      (confirm_completion stConfirmScenario 1 7).users 2
        = some ⟨0 + 150, 0⟩) ∧
    (((confirm_completion stConfirmScenario 2 8).orders 8).map OrderRec.status
        = some OrderStatus.inProgress ∧
      (confirm_completion stConfirmScenario 2 8).users
        = stConfirmScenario.users) :=
  ⟨c2_confirm_completion_settles.1 stConfirmScenario 7 1 2
      ⟨1, 150, OrderStatus.inProgress, some 2, false, true⟩ ⟨0, 150⟩ ⟨0, 0⟩
      rfl rfl rfl (by norm_num) rfl rfl (by norm_num) (Or.inl ⟨rfl, rfl⟩),
   c2_confirm_completion_settles.2 stConfirmScenario 8 2 2
      ⟨1, 150, OrderStatus.inProgress, some 2, false, false⟩ ⟨0, 0⟩
      rfl rfl rfl (by norm_num) rfl (Or.inr ⟨rfl, rfl⟩)⟩

/-- C6: confirmed.  A successful withdrawal request (user exists, amount
covered by the available balance) stores a pending request whose
`balance_before` is the pre-debit balance and debits the amount in the
same handler; a subsequent `admin_reject_withdrawal` marks the request
rejected and credits exactly the same amount back, restoring the user's
original balance. -/
theorem c6_withdrawal_debits_then_refund (s : St) (uid : Nat) (u : UserRec)
    (amount : ℚ) (phone : String)
    (hu : s.users uid = some u) (hamt : amount ≤ u.balance) :
    ∃ s1, confirm_withdrawal s uid amount phone = some (s1, s.withdrawal_counter) ∧
      s1.users uid = some ⟨u.balance - amount, u.frozen⟩ ∧
      s1.withdrawals s.withdrawal_counter
        = some ⟨uid, amount, phone, none, ReqStatus.pending, u.balance⟩ ∧
      (admin_reject_withdrawal s1 s.withdrawal_counter).users uid
        = some ⟨u.balance, u.frozen⟩ ∧
      ((admin_reject_withdrawal s1 s.withdrawal_counter).withdrawals
          s.withdrawal_counter).map WithdrawalRec.status = some ReqStatus.rejected := by
  refine ⟨{ users := setUser s.users uid ⟨u.balance - amount, u.frozen⟩,
            orders := s.orders,
            withdrawals := setWithdrawal s.withdrawals s.withdrawal_counter
              ⟨uid, amount, phone, none, ReqStatus.pending, u.balance⟩,
            reviews := s.reviews,
            withdrawal_counter := s.withdrawal_counter + 1 }, ?_, ?_, ?_, ?_, ?_⟩
  · simp [confirm_withdrawal, create_withdrawal_request, subtract_from_balance,
      get_user_balance, hu, hamt]
  · simp [setUser]
  · simp [setWithdrawal]
  · have hb : u.balance - amount + amount = u.balance := by ring
    simp [admin_reject_withdrawal, setWithdrawal, add_to_balance, setUser, hb]
  · simp [admin_reject_withdrawal, setWithdrawal, add_to_balance, setUser]

/-- C6 witness (spec Scenario C): user 1 with balance 100 requests a
withdrawal of 40; the balance drops to 60 and request 9 is pending with
`balance_before` 100; the admin rejection restores balance 100 and marks
request 9 rejected. -/
theorem c6_withdrawal_debits_then_refund_witness :
    ∃ s1, confirm_withdrawal stWithdraw 1 40 "p" = some (s1, 9) ∧
      s1.users 1 = some ⟨100 - 40, 0⟩ ∧
      s1.withdrawals 9 = some ⟨1, 40, "p", none, ReqStatus.pending, 100⟩ ∧
      (admin_reject_withdrawal s1 9).users 1 = some ⟨100, 0⟩ ∧
      ((admin_reject_withdrawal s1 9).withdrawals 9).map WithdrawalRec.status
        = some ReqStatus.rejected :=
  c6_withdrawal_debits_then_refund stWithdraw 1 ⟨100, 0⟩ 40 "p" rfl (by norm_num)

/-- C9: refuted as stated.  In `stReviewGate` order 7 is still active
and user 5 is not a participant, so `can_leave_review` answers false;
yet `add_review` — which re-checks only the duplicate key, not the order
status or the participants — succeeds and inserts the record. -/
theorem c9_add_review_skips_status_and_participant_checks :
    can_leave_review stReviewGate 7 5 6 = false ∧
    (add_review stReviewGate 7 5 6 4 "t").2 = true ∧
    (add_review stReviewGate 7 5 6 4 "t").1.reviews (7, 5, 6) = some ⟨4, "t"⟩ := by
  refine ⟨rfl, rfl, ?_⟩
  simp [add_review, stReviewGate, setReview, noWithdrawals, noOrders]

/-- C9 amended: the only check `add_review` re-runs is uniqueness of the
`(order_id, reviewer_id, reviewed_id)` key: if a review with that key
exists the call fails and changes nothing; otherwise it succeeds and
inserts exactly one record, leaving every other review and all users and
orders untouched.  The completed-status and participant conditions are
enforced only by `can_leave_review` at the start of the review dialog. -/
theorem c9_add_review_checks_only_duplicate_key :
    (∀ (s : St) (oid rer red rating : Nat) (text : String) (rv : ReviewRec),
        s.reviews (oid, rer, red) = some rv →
        add_review s oid rer red rating text = (s, false)) ∧
    (∀ (s : St) (oid rer red rating : Nat) (text : String),
        s.reviews (oid, rer, red) = none →
        (add_review s oid rer red rating text).2 = true ∧
        (add_review s oid rer red rating text).1.reviews (oid, rer, red)
          = some ⟨rating, text⟩ ∧
        (∀ k, k ≠ (oid, rer, red) →
          (add_review s oid rer red rating text).1.reviews k = s.reviews k) ∧
        (add_review s oid rer red rating text).1.users = s.users ∧
        (add_review s oid rer red rating text).1.orders = s.orders) := by
  constructor
  · intro s oid rer red rating text rv hrv
    simp [add_review, hrv]
  · intro s oid rer red rating text hnone
    refine ⟨?_, ?_, ?_, ?_, ?_⟩
    · simp [add_review, hnone]
    · simp [add_review, hnone, setReview]
    · intro k hk
      simp [add_review, hnone, setReview, hk]
    · simp [add_review, hnone]
    · simp [add_review, hnone]

/-- C9 amended witness: in `stReviewGate` the key (7, 1, 2) is taken, so
that insertion fails and returns the state unchanged; the key (7, 5, 6)
is free, so that insertion succeeds. -/
theorem c9_add_review_checks_only_duplicate_key_witness :
    add_review stReviewGate 7 1 2 3 "x" = (stReviewGate, false) ∧
    ((add_review stReviewGate 7 5 6 4 "t").2 = true ∧
      (add_review stReviewGate 7 5 6 4 "t").1.reviews (7, 5, 6) = some ⟨4, "t"⟩ ∧
      (∀ k, k ≠ (7, 5, 6) →
        (add_review stReviewGate 7 5 6 4 "t").1.reviews k = stReviewGate.reviews k) ∧
      (add_review stReviewGate 7 5 6 4 "t").1.users = stReviewGate.users ∧
      (add_review stReviewGate 7 5 6 4 "t").1.orders = stReviewGate.orders) :=
  ⟨c9_add_review_checks_only_duplicate_key.1 stReviewGate 7 1 2 3 "x" ⟨5, "ok"⟩ rfl,
   c9_add_review_checks_only_duplicate_key.2 stReviewGate 7 5 6 4 "t" rfl⟩

/-- Updating one user with a record whose two fields are nonnegative
preserves nonnegativity of the whole dictionary. -/
theorem nonnegUsers_setUser (users : Users) (uid : Nat) (r : UserRec)
    (h : NonnegUsers users) (hb : 0 ≤ r.balance) (hf : 0 ≤ r.frozen) :
    NonnegUsers (setUser users uid r) := by
  intro w q hw
  by_cases hww : w = uid
  · subst hww
    simp [setUser] at hw
    exact hw ▸ ⟨hb, hf⟩
  · simp [setUser, hww] at hw
    exact h w q hw

/-- Each of the five balance functions preserves nonnegativity of all
balances when its amount is nonnegative. -/
theorem nonnegUsers_applyOp (users : Users) (op : LOp)
    (h : NonnegUsers users) (hamt : 0 ≤ op.amt) :
    NonnegUsers (applyOp users op) := by
  cases op with
  | credit uid a =>
    simp [LOp.amt] at hamt
    cases hu : users uid with
    | none => simpa [applyOp, add_to_balance, hu] using h
    | some u =>
      obtain ⟨hb, hf⟩ := h uid u hu
      simp only [applyOp, add_to_balance, hu]
      exact nonnegUsers_setUser users uid _ h (by dsimp only; linarith) hf
  | debit uid a =>
    simp [LOp.amt] at hamt
    cases hu : users uid with
    | none => simpa [applyOp, subtract_from_balance, hu] using h
    | some u =>
      obtain ⟨hb, hf⟩ := h uid u hu
      by_cases hle : a ≤ u.balance
      · simp only [applyOp, subtract_from_balance, hu, if_pos hle]
        exact nonnegUsers_setUser users uid _ h (by dsimp only; linarith) hf
      · simpa [applyOp, subtract_from_balance, hu, hle] using h
  | freeze uid a =>
    simp [LOp.amt] at hamt
    cases hu : users uid with
    | none => simpa [applyOp, freeze_balance, hu] using h
    | some u =>
      obtain ⟨hb, hf⟩ := h uid u hu
      by_cases hle : a ≤ u.balance
      · simp only [applyOp, freeze_balance, hu, if_pos hle]
        exact nonnegUsers_setUser users uid _ h (by dsimp only; linarith) (by dsimp only; linarith)
      · simpa [applyOp, freeze_balance, hu, hle] using h
  | unfreeze uid a =>
    simp [LOp.amt] at hamt
    cases hu : users uid with
    | none => simpa [applyOp, unfreeze_balance, hu] using h
    | some u =>
      obtain ⟨hb, hf⟩ := h uid u hu
      by_cases hle : a ≤ u.frozen
      · simp only [applyOp, unfreeze_balance, hu, if_pos hle]
        exact nonnegUsers_setUser users uid _ h (by dsimp only; linarith) (by dsimp only; linarith)
      · simpa [applyOp, unfreeze_balance, hu, hle] using h
  | transferFrozen fromId toId a =>
    simp [LOp.amt] at hamt
    cases hfrom : users fromId with
    | none => simpa [applyOp, transfer_frozen_to_user, hfrom] using h
    | some fu =>
      cases hto : users toId with
      | none => simpa [applyOp, transfer_frozen_to_user, hfrom, hto] using h
      | some tu =>
        obtain ⟨hfb, hff⟩ := h fromId fu hfrom
        obtain ⟨htb, htf⟩ := h toId tu hto
        by_cases hle : a ≤ fu.frozen
        · simp only [applyOp, transfer_frozen_to_user, hfrom, hto, if_pos hle]
          have h1 : NonnegUsers (setUser users fromId ⟨fu.balance, fu.frozen - a⟩) :=
            nonnegUsers_setUser users fromId _ h hfb (by dsimp only; linarith)
          by_cases heq : toId = fromId
          · simp only [heq, if_pos rfl]
            exact nonnegUsers_setUser _ fromId _ h1 (by simp; linarith)
              (by simp; linarith)
          · simp only [if_neg heq]
            exact nonnegUsers_setUser _ toId _ h1 (by simp; linarith)
              (by simpa using htf)
        · simpa [applyOp, transfer_frozen_to_user, hfrom, hto, hle] using h

/-- Folding any list of balance operations with nonnegative amounts over
a nonnegative dictionary keeps it nonnegative. -/
theorem nonnegUsers_applyOps (l : List LOp) :
    ∀ users : Users, NonnegUsers users → (∀ op ∈ l, 0 ≤ op.amt) →
      NonnegUsers (applyOps users l) := by
  induction l with
  | nil => intro users h _; simpa [applyOps] using h
  | cons op t ih =>
    intro users h hs
    have h1 : NonnegUsers (applyOp users op) :=
      nonnegUsers_applyOp users op h (hs op (List.mem_cons_self op t))
    have h2 := ih (applyOp users op) h1 (fun x hx => hs x (List.mem_cons_of_mem op hx))
    simpa [applyOps] using h2

/-- The single user 1 with zero balances is a nonnegative dictionary. -/
theorem nonnegUsers_usersNonnegOne : NonnegUsers usersNonnegOne := by
  intro uid r h
  by_cases h1 : uid = 1
  · subst h1
    rw [show usersNonnegOne 1 = some ⟨0, 0⟩ from rfl] at h
    cases h
    exact ⟨le_refl 0, le_refl 0⟩
  · simp [usersNonnegOne, h1] at h

/-- C7: refuted as stated.  `add_to_balance` — the code behind the
spec's `credit` — accepts any amount without the `InvalidAmount` guard,
so a sequence consisting of one credit of −5 to user 1 (who starts
nonnegative at 0/0) drives the available balance to −5, below zero. -/
theorem c7_negative_credit_breaks_nonnegativity :
    NonnegUsers usersNonnegOne ∧
    applyOps usersNonnegOne [LOp.credit 1 (-5)] 1 = some ⟨-5, 0⟩ ∧
    (-5 : ℚ) < 0 := by
  refine ⟨nonnegUsers_usersNonnegOne, ?_, by norm_num⟩
  norm_num [applyOps, applyOp, add_to_balance, usersNonnegOne, setUser]

/-- C7 amended: for all sequences of Ledger operations whose amounts are
positive (as §4.1 of the spec demands of every operation), starting from
any dictionary of nonnegative balances, every user's available and
frozen balance is nonnegative after every operation, i.e. after any
leading segment of the sequence. -/
theorem c7_nonnegativity_for_positive_amounts (ops : List LOp) (users : Users)
    (h : NonnegUsers users) (hpos : ∀ op ∈ ops, 0 < op.amt)
    (l₁ l₂ : List LOp) (hsplit : ops = l₁ ++ l₂) :
    NonnegUsers (applyOps users l₁) := by
  apply nonnegUsers_applyOps l₁ users h
  intro op hop
  exact le_of_lt (hpos op (hsplit ▸ List.mem_append.mpr (Or.inl hop)))

/-- C7 amended witness: after the first operation of the sequence
credit 5 to user 1 then freeze 3 of it, all balances are nonnegative. -/
theorem c7_nonnegativity_for_positive_amounts_witness :
    NonnegUsers (applyOps usersNonnegOne [LOp.credit 1 5]) := by
  apply c7_nonnegativity_for_positive_amounts [LOp.credit 1 5, LOp.freeze 1 3]
    usersNonnegOne nonnegUsers_usersNonnegOne ?_ [LOp.credit 1 5] [LOp.freeze 1 3] rfl
  intro op hop
  rcases List.mem_cons.mp hop with rfl | hop2
  · norm_num [LOp.amt]
  · rcases List.mem_cons.mp hop2 with rfl | hop3
    · norm_num [LOp.amt]
    · cases hop3
